import Mathlib

/-!
Shallow embedding of the usb_vhci crate (src/src/lib.rs, src/src/usbfs.rs,
src/src/utils.rs, src/src/controller.rs and src/examples/virtual_device.rs)
together with theorems settling the specification claims.

Machine integers are modelled as Nat (unsigned) or Int (signed) with explicit
wrapping where the Rust code wraps; a Rust panic is modelled as Option.none;
fallible operations return Except.  Raw pointers that are only tested for
nullness are modelled as a Bool field (true = non-null).
-/

namespace UsbVhci

/-! Errno constants of nix::libc on Linux (x86_64 and all mainstream ports). -/

def EINPROGRESS : Int := 115

def EREMOTEIO : Int := 121

def EXDEV : Int := 18

def EPROTO : Int := 71

def ECONNRESET : Int := 104

def ETIMEDOUT : Int := 110

def ESHUTDOWN : Int := 108

def ENODEV : Int := 19

def EILSEQ : Int := 84

def ETIME : Int := 62

def EOVERFLOW : Int := 75

def EPIPE : Int := 32

def ECOMM : Int := 70

def ENOSR : Int := 63

def EINVAL : Int := 22

def ENOENT : Int := 2

def ECANCELED : Int := 125

def EBADMSG : Int := 74

/-! Constants from src/src/lib.rs and its ioctl module. -/

def MAX_ISO_PACKETS : Nat := 64

def USB_VHCI_URB_TYPE_ISO : Nat := 0

def USB_VHCI_URB_TYPE_INT : Nat := 1

def USB_VHCI_URB_TYPE_CONTROL : Nat := 2

def USB_VHCI_URB_TYPE_BULK : Nat := 3

def USB_VHCI_WORK_TYPE_PORT_STAT : Nat := 0

def USB_VHCI_WORK_TYPE_PROCESS_URB : Nat := 1

def USB_VHCI_WORK_TYPE_CANCEL_URB : Nat := 2

def USB_VHCI_URB_FLAGS_SHORT_NOT_OK : Nat := 0x0001

def USB_VHCI_URB_FLAGS_ISO_ASAP : Nat := 0x0002

def USB_VHCI_URB_FLAGS_ZERO_PACKET : Nat := 0x0040

/-- bitflags contains: every bit of the flag value is set in the receiver. -/
def containsFlag (bits f : Nat) : Bool := bits &&& f == f

/-- Signed 32-bit machine integers are modelled as Int.  The alias keeps the
name Int reachable inside namespaces that declare a constructor named Int. -/
abbrev I32 := Int

/-! lib.rs: Dir, Endpoint. -/

/-- lib.rs enum Dir (In = 0, Out = 1). -/
inductive Dir where
  | In
  | Out
deriving DecidableEq, Repr

/-- lib.rs Endpoint newtype over a u8 endpoint address. -/
structure Endpoint where
  val : Nat
deriving DecidableEq, Repr

def Endpoint.get (e : Endpoint) : Nat := e.val

def Endpoint.new (epadr : Nat) : Endpoint := ⟨epadr⟩

/-- lib.rs Endpoint::direction.  The Rust source computes
`match !(self.get() & 0x80) != 0 { true => Dir::Out, false => Dir::In }`
where the bang is the bitwise u8 complement, modelled here by xor with 0xFF. -/
def Endpoint.direction (e : Endpoint) : Dir :=
  if (0xFF ^^^ (e.get &&& 0x80)) ≠ 0 then Dir.Out else Dir.In

def Endpoint.is_out (e : Endpoint) : Bool :=
  match e.direction with
  | Dir.Out => true
  | Dir.In => false

def Endpoint.is_in (e : Endpoint) : Bool :=
  match e.direction with
  | Dir.In => true
  | Dir.Out => false

/-! utils.rs BoundedU8 and lib.rs Port. -/

/-- utils.rs BoundedU8::new with const parameters LOWER_INC and UPPER_EX. -/
def BoundedU8.new (LOWER_INC UPPER_EX num : Nat) : Option Nat :=
  if LOWER_INC > num ∨ UPPER_EX ≤ num then none else some num

/-- lib.rs Port::new, a BoundedU8 with LOWER_INC = 1 and UPPER_EX = 32. -/
def Port.new (port : Nat) : Option Nat :=
  BoundedU8.new 1 32 port

/-! lib.rs IsoStatus and the status/errno mapping. -/

inductive IsoStatus where
  | Success
  | Pending
  | ShortPacket
  | Error
  | Canceled
  | TimedOut
  | DeviceDisabled
  | DeviceDisconnected
  | BitStuff
  | Crc
  | NoResponse
  | Babble
  | Stall
  | BufferOverrun
  | BufferUnderrun
  | AllIsoPacketsFailed
deriving DecidableEq, Repr, Fintype

/-- lib.rs IsoStatus::to_errno_raw. -/
def IsoStatus.to_errno_raw (s : IsoStatus) (is_iso : Bool) : Int :=
  match s with
  | .Success => 0
  | .Pending => -EINPROGRESS
  | .ShortPacket => - EREMOTEIO
  | .Error => if is_iso then -EXDEV else -EPROTO
  | .Canceled => -ECONNRESET
  | .TimedOut => -ETIMEDOUT
  | .DeviceDisabled => -ESHUTDOWN
  | .DeviceDisconnected => -ENODEV
  | .BitStuff => -EPROTO
  | .Crc => -EILSEQ
  | .NoResponse => -ETIME
  | .Babble => -EOVERFLOW
  | .Stall => -EPIPE
  | .BufferOverrun => -ECOMM
  | .BufferUnderrun => -ENOSR
  | .AllIsoPacketsFailed => if is_iso then -EINVAL else -EPROTO

/-- lib.rs IsoStatus::from_errno_raw, matching on the negated errno. -/
def IsoStatus.from_errno_raw (errno : Int) (is_iso : Bool) : IsoStatus :=
  let e := -errno
  if e = 0 then .Success
  else if e = EINPROGRESS then .Pending
  else if e = EREMOTEIO then .ShortPacket
  else if e = ENOENT ∨ e = ECONNRESET then .Canceled
  else if e = ETIMEDOUT then .TimedOut
  else if e = ESHUTDOWN then .DeviceDisabled
  else if e = ENODEV then .DeviceDisconnected
  else if e = EPROTO then .BitStuff
  else if e = EILSEQ then .Crc
  else if e = ETIME then .NoResponse
  else if e = EOVERFLOW then .Babble
  else if e = EPIPE then .Stall
  else if e = ECOMM then .BufferOverrun
  else if e = ENOSR then .BufferUnderrun
  else if e = EINVAL then (if is_iso then .AllIsoPacketsFailed else .Error)
  else .Error

/-- Claim C2: for every errno code e in the 16-entry status mapping table (the
image of to_errno_raw in the given iso context), the round trip
to_errno_raw (from_errno_raw e iso) iso returns e; moreover Error maps to
-EXDEV in the iso context and -EPROTO otherwise, and AllIsoPacketsFailed maps
to -EINVAL in the iso context and -EPROTO otherwise, two distinct codes. -/
theorem C2_errno_roundtrip :
    (∀ (s : IsoStatus) (iso : Bool),
      IsoStatus.to_errno_raw (IsoStatus.from_errno_raw (IsoStatus.to_errno_raw s iso) iso) iso
        = IsoStatus.to_errno_raw s iso)
    ∧ IsoStatus.to_errno_raw .Error true = -EXDEV
    ∧ IsoStatus.to_errno_raw .Error false = -EPROTO
    ∧ IsoStatus.to_errno_raw .AllIsoPacketsFailed true = -EINVAL
    ∧ IsoStatus.to_errno_raw .AllIsoPacketsFailed false = -EPROTO
    ∧ IsoStatus.to_errno_raw .AllIsoPacketsFailed true
        ≠ IsoStatus.to_errno_raw .AllIsoPacketsFailed false := by
  refine ⟨?_, by decide, by decide, by decide, by decide, by decide⟩
  decide

/-! lib.rs URB domain model.  Byte buffers carry their u8 contents; a Rust
Vec additionally tracks its capacity. -/

/-- Model of a Rust Vec of bytes: contents plus allocated capacity. -/
structure RustVec where
  data : List Nat
  cap : Nat
deriving DecidableEq, Repr

def RustVec.new : RustVec := ⟨[], 0⟩

/-- Vec::reserve_exact: ensure capacity for len + additional elements
(exact-allocation semantics). -/
def RustVec.reserve_exact (v : RustVec) (additional : Nat) : RustVec :=
  { v with cap := max v.cap (v.data.length + additional) }

/-- Vec::resize with a fill value; growing past capacity reallocates. -/
def RustVec.resize (v : RustVec) (new_len : Nat) (value : Nat) : RustVec :=
  if new_len ≤ v.data.length then
    { v with data := v.data.take new_len }
  else
    { data := v.data ++ List.replicate (new_len - v.data.length) value
      cap := max v.cap new_len }

/-- lib.rs IsoPacket. -/
structure IsoPacket where
  offset : Nat
  packet_length : Int
  packet_actual : Int
  status : IsoStatus
deriving DecidableEq, Repr

/-- IsoPacket::default (zeroes, with the default IsoStatus Success). -/
def IsoPacket.default : IsoPacket := ⟨0, 0, 0, .Success⟩

structure UrbIso where
  status : IsoStatus
  handle : Nat
  buffer : List Nat
  iso_packets : List IsoPacket
  error_count : Int
  devadr : Nat
  epadr : Endpoint
  asap : Bool
  interval : Int
deriving DecidableEq, Repr

structure UrbInt where
  status : IsoStatus
  handle : Nat
  buffer : RustVec
  devadr : Nat
  epadr : Endpoint
  short_not_ok : Bool
  interval : Int
deriving DecidableEq, Repr

structure UrbControl where
  status : IsoStatus
  handle : Nat
  buffer : RustVec
  devadr : Nat
  epadr : Endpoint
  w_value : Nat
  w_index : Nat
  w_length : Nat
  bm_request_type : Nat
  b_request : Nat
deriving DecidableEq, Repr

structure UrbBulk where
  status : IsoStatus
  handle : Nat
  buffer : RustVec
  devadr : Nat
  epadr : Endpoint
  send_zero_packet : Bool
deriving DecidableEq, Repr

inductive Urb where
  | Iso : UrbIso → Urb
  | Int : UrbInt → Urb
  | Ctrl : UrbControl → Urb
  | Bulk : UrbBulk → Urb
deriving DecidableEq, Repr

def Urb.handle : Urb → Nat
  | .Iso u => u.handle
  | .Int u => u.handle
  | .Ctrl u => u.handle
  | .Bulk u => u.handle

/-- lib.rs Urb::buffer_length: the buffer capacity (the slice length for Iso). -/
def Urb.buffer_length : Urb → Nat
  | .Iso u => u.buffer.length
  | .Int u => u.buffer.cap
  | .Ctrl u => u.buffer.cap
  | .Bulk u => u.buffer.cap

/-- lib.rs Urb::buffer_actual: the current buffer length. -/
def Urb.buffer_actual : Urb → Nat
  | .Iso u => u.buffer.length
  | .Int u => u.buffer.data.length
  | .Ctrl u => u.buffer.data.length
  | .Bulk u => u.buffer.data.length

def Urb.packet_count : Urb → Nat
  | .Iso u => u.iso_packets.length
  | _ => 0

def Urb.epadr : Urb → Endpoint
  | .Iso u => u.epadr
  | .Int u => u.epadr
  | .Ctrl u => u.epadr
  | .Bulk u => u.epadr

def Urb.error_count : Urb → I32
  | .Iso u => u.error_count
  | _ => 0

def Urb.status_to_errno_raw : Urb → I32
  | .Iso u => u.status.to_errno_raw true
  | .Int u => u.status.to_errno_raw false
  | .Ctrl u => u.status.to_errno_raw false
  | .Bulk u => u.status.to_errno_raw false

/-! lib.rs ioctl module wire structures (pointers dropped; only the fields the
library reads are kept). -/

structure IocSetupPacket where
  bm_request_type : Nat
  b_request : Nat
  w_value : Nat
  w_index : Nat
  w_length : Nat
deriving DecidableEq, Repr

structure IocUrb where
  setup_packet : IocSetupPacket
  buffer_length : Int
  interval : Int
  packet_count : Int
  flags : Nat
  address : Nat
  endpoint : Nat
  typ : Nat
deriving DecidableEq, Repr

structure IocPortStat where
  status : Nat
  change : Nat
  index : Nat
  flags : Nat
deriving DecidableEq, Repr

inductive IocWorkUnion where
  | urb : IocUrb → IocWorkUnion
  | port : IocPortStat → IocWorkUnion
deriving DecidableEq, Repr

structure IocWork where
  handle : Nat
  work : IocWorkUnion
  timeout : Int
  typ : Nat
deriving DecidableEq, Repr

/-- lib.rs PortStat, decoded from IocPortStat (the index is a valid Port). -/
structure PortStat where
  status : Nat
  change : Nat
  index : Nat
  flags : Nat
deriving DecidableEq, Repr

/-- From<ioctl::IocPortStat> for PortStat; Port::new(..).unwrap() panics on an
out-of-range index, modelled as none.  PortStatus and PortChange accept every
bit pattern because their bitflags declare all bits as known. -/
def PortStat.fromIoc (p : IocPortStat) : Option PortStat :=
  match Port.new p.index with
  | some port => some ⟨p.status, p.change, port, p.flags⟩
  | none => none

inductive Work where
  | CancelUrb : Nat → Work
  | ProcessUrb : Urb → Work
  | PortStat : PortStat → Work
deriving DecidableEq, Repr

/-- usize::try_from(i32).unwrap(): panics (none) on a negative value. -/
def usizeOfI32 (n : Int) : Option Nat :=
  if n < 0 then none else some n.toNat

/-- Decode of the ProcessUrb payload inside TryFrom<ioctl::IocWork> for Work
(lib.rs lines 830-910).  none models a panic of the unwrap calls, an
Except.error models the EBADMSG rejection of an unknown URB type tag. -/
def decodeUrb (handle : Nat) (u : IocUrb) : Option (Except Int Urb) :=
  if u.typ = USB_VHCI_URB_TYPE_ISO then
    match usizeOfI32 u.buffer_length, usizeOfI32 u.packet_count with
    | some len, some pc =>
      some (.ok (.Iso
        { status := .Pending
          handle := handle
          buffer := List.replicate len 0
          iso_packets := List.replicate pc IsoPacket.default
          error_count := 0
          devadr := u.address
          epadr := Endpoint.new u.endpoint
          asap := containsFlag u.flags USB_VHCI_URB_FLAGS_ISO_ASAP
          interval := u.interval }))
    | _, _ => none
  else if u.typ = USB_VHCI_URB_TYPE_INT then
    match usizeOfI32 u.buffer_length with
    | some len =>
      match usizeOfI32 (if (Endpoint.new u.endpoint).is_out then u.buffer_length else 0) with
      | some act =>
        some (.ok (.Int
          { status := .Pending
            handle := handle
            buffer := (RustVec.new.reserve_exact len).resize act 0
            devadr := u.address
            epadr := Endpoint.new u.endpoint
            short_not_ok := containsFlag u.flags USB_VHCI_URB_FLAGS_SHORT_NOT_OK
            interval := u.interval }))
      | none => none
    | none => none
  else if u.typ = USB_VHCI_URB_TYPE_CONTROL then
    match usizeOfI32 u.buffer_length with
    | some len =>
      match usizeOfI32 (if (Endpoint.new u.endpoint).is_out then u.buffer_length else 0) with
      | some act =>
        some (.ok (.Ctrl
          { status := .Pending
            handle := handle
            buffer := (RustVec.new.reserve_exact len).resize act 0
            devadr := u.address
            epadr := Endpoint.new u.endpoint
            w_value := u.setup_packet.w_value
            w_index := u.setup_packet.w_index
            w_length := u.setup_packet.w_length
            bm_request_type := u.setup_packet.bm_request_type
            b_request := u.setup_packet.b_request }))
      | none => none
    | none => none
  else if u.typ = USB_VHCI_URB_TYPE_BULK then
    match usizeOfI32 u.buffer_length with
    | some len =>
      match usizeOfI32 (if (Endpoint.new u.endpoint).is_out then u.buffer_length else 0) with
      | some act =>
        some (.ok (.Bulk
          { status := .Pending
            handle := handle
            buffer := (RustVec.new.reserve_exact len).resize act 0
            devadr := u.address
            epadr := Endpoint.new u.endpoint
            send_zero_packet := containsFlag u.flags USB_VHCI_URB_FLAGS_ZERO_PACKET }))
      | none => none
    | none => none
  else
    some (.error EBADMSG)

/-- TryFrom<ioctl::IocWork> for Work.  Reading the union arm that does not
match the type tag is undefined behaviour in the source and modelled as none. -/
def Work.tryFrom (w : IocWork) : Option (Except Int Work) :=
  if w.typ = USB_VHCI_WORK_TYPE_PORT_STAT then
    match w.work with
    | .port p =>
      match PortStat.fromIoc p with
      | some ps => some (.ok (.PortStat ps))
      | none => none
    | .urb _ => none
  else if w.typ = USB_VHCI_WORK_TYPE_PROCESS_URB then
    match w.work with
    | .urb u =>
      match decodeUrb w.handle u with
      | some (.ok urb) => some (.ok (.ProcessUrb urb))
      | some (.error e) => some (.error e)
      | none => none
    | .port _ => none
  else if w.typ = USB_VHCI_WORK_TYPE_CANCEL_URB then
    some (.ok (.CancelUrb w.handle))
  else
    some (.error EBADMSG)

/-! Facts about the decode path used by claim C1. -/

/-- The Rust expression behind Endpoint::direction, the bitwise complement of
(epadr & 0x80) inside u8, is never zero: its lowest bit is always set.
Consequently Endpoint::direction returns Dir::Out for every endpoint address
and Endpoint::is_out is constantly true. -/
theorem endpoint_compl_ne_zero (e : Endpoint) :
    (0xFF : Nat) ^^^ (e.get &&& 0x80) ≠ 0 := by
  have hbit : ((0xFF : Nat) ^^^ (e.get &&& 0x80)).testBit 0 = true := by
    have h80 : ((0x80 : Nat)).testBit 0 = false := by decide
    have hFF : ((0xFF : Nat)).testBit 0 = true := by decide
    rw [Nat.testBit_xor, Nat.testBit_and, h80, hFF]
    simp
  intro h
  rw [h] at hbit
  simp [Nat.zero_testBit] at hbit

theorem Endpoint.is_out_always (e : Endpoint) : e.is_out = true := by
  unfold Endpoint.is_out Endpoint.direction
  rw [if_pos (endpoint_compl_ne_zero e)]

theorem Endpoint.is_in_never (e : Endpoint) : e.is_in = false := by
  unfold Endpoint.is_in Endpoint.direction
  rw [if_pos (endpoint_compl_ne_zero e)]

theorem usizeOfI32_eq_some {n : Int} {m : Nat} (h : usizeOfI32 n = some m) :
    0 ≤ n ∧ (m : Int) = n := by
  unfold usizeOfI32 at h
  by_cases hn : n < 0
  · rw [if_pos hn] at h
    exact absurd h (by simp)
  · rw [if_neg hn] at h
    have hm : n.toNat = m := by simpa using h
    refine ⟨le_of_not_lt hn, ?_⟩
    rw [← hm]
    exact Int.toNat_of_nonneg (le_of_not_lt hn)

/-- Reserving exactly len bytes on a fresh Vec and then resizing to len yields
length len and capacity len. -/
theorem reserve_resize_full (len : Nat) :
    ((RustVec.new.reserve_exact len).resize len 0).data.length = len
    ∧ ((RustVec.new.reserve_exact len).resize len 0).cap = len := by
  unfold RustVec.new RustVec.reserve_exact RustVec.resize
  by_cases h : len ≤ 0
  · have h0 : len = 0 := Nat.le_zero.mp h
    subst h0
    simp
  · rw [if_neg (by simpa using h)]
    simp

/-- Claim C1 (amended): every successfully decoded ProcessUrb, of any of the
four variants and for every endpoint address byte, has buffer actual length
equal to the kernel-requested buffer_length, and buffer capacity equal to
buffer_length as well.  In particular a decoded URB on an endpoint with bit 7
set does not start at length zero: the direction test of lib.rs classifies
every endpoint as host-to-device (OUT). -/
theorem C1_decode_buffer_sizing (handle : Nat) (u : IocUrb) (urb : Urb)
    (hd : decodeUrb handle u = some (.ok urb)) :
    (urb.buffer_actual : Int) = u.buffer_length
    ∧ (urb.buffer_length : Int) = u.buffer_length := by
  unfold decodeUrb at hd
  simp only [Endpoint.is_out_always, if_true] at hd
  by_cases h0 : u.typ = USB_VHCI_URB_TYPE_ISO
  · rw [if_pos h0] at hd
    cases hlen : usizeOfI32 u.buffer_length with
    | none => rw [hlen] at hd; cases hpc : usizeOfI32 u.packet_count <;> simp [hpc] at hd
    | some len =>
      cases hpc : usizeOfI32 u.packet_count with
      | none => rw [hlen, hpc] at hd; simp at hd
      | some pc =>
        rw [hlen, hpc] at hd
        simp only [Option.some.injEq, Except.ok.injEq] at hd
        obtain ⟨-, hcast⟩ := usizeOfI32_eq_some hlen
        subst hd
        simp [Urb.buffer_actual, Urb.buffer_length, hcast]
  · rw [if_neg h0] at hd
    by_cases h1 : u.typ = USB_VHCI_URB_TYPE_INT
    · rw [if_pos h1] at hd
      cases hlen : usizeOfI32 u.buffer_length with
      | none => rw [hlen] at hd; simp at hd
      | some len =>
        rw [hlen] at hd
        simp only [Option.some.injEq, Except.ok.injEq] at hd
        obtain ⟨-, hcast⟩ := usizeOfI32_eq_some hlen
        subst hd
        obtain ⟨hl, hc⟩ := reserve_resize_full len
        simp [Urb.buffer_actual, Urb.buffer_length, hl, hc, hcast]
    · rw [if_neg h1] at hd
      by_cases h2 : u.typ = USB_VHCI_URB_TYPE_CONTROL
      · rw [if_pos h2] at hd
        cases hlen : usizeOfI32 u.buffer_length with
        | none => rw [hlen] at hd; simp at hd
        | some len =>
          rw [hlen] at hd
          simp only [Option.some.injEq, Except.ok.injEq] at hd
          obtain ⟨-, hcast⟩ := usizeOfI32_eq_some hlen
          subst hd
          obtain ⟨hl, hc⟩ := reserve_resize_full len
          simp [Urb.buffer_actual, Urb.buffer_length, hl, hc, hcast]
      · rw [if_neg h2] at hd
        by_cases h3 : u.typ = USB_VHCI_URB_TYPE_BULK
        · rw [if_pos h3] at hd
          cases hlen : usizeOfI32 u.buffer_length with
          | none => rw [hlen] at hd; simp at hd
          | some len =>
            rw [hlen] at hd
            simp only [Option.some.injEq, Except.ok.injEq] at hd
            obtain ⟨-, hcast⟩ := usizeOfI32_eq_some hlen
            subst hd
            obtain ⟨hl, hc⟩ := reserve_resize_full len
            simp [Urb.buffer_actual, Urb.buffer_length, hl, hc, hcast]
        · rw [if_neg h3] at hd
          simp at hd

/-- Buffer actual length of a successfully decoded ProcessUrb payload. -/
def decodedBufferActual (handle : Nat) (u : IocUrb) : Option Nat :=
  match decodeUrb handle u with
  | some (.ok urb) => some urb.buffer_actual
  | _ => none

/-- Interrupt URB envelope on IN endpoint 0x80 requesting one byte. -/
def c1InIocUrb : IocUrb :=
  { setup_packet := ⟨0, 0, 0, 0, 0⟩
    buffer_length := 1
    interval := 0
    packet_count := 0
    flags := 0
    address := 0
    endpoint := 0x80
    typ := USB_VHCI_URB_TYPE_INT }

/-- Claim C1 (counterexample): decoding an interrupt URB whose endpoint
address has bit 7 set (implied direction IN) and buffer_length 1 yields a URB
whose buffer actual length is 1, not 0 as the claim demands for IN. -/
theorem C1_counterexample :
    (0x80 : Nat) &&& 0x80 = 0x80
    ∧ decodedBufferActual 1 c1InIocUrb = some 1
    ∧ some 1 ≠ some 0 := by
  decide

/-- Concrete decode instance used to witness C1_decode_buffer_sizing. -/
def c1WitnessUrb : Urb :=
  .Int
    { status := .Pending
      handle := 7
      buffer := { data := [0, 0], cap := 2 }
      devadr := 0
      epadr := Endpoint.new 0x80
      short_not_ok := false
      interval := 0 }

/-- Concrete interrupt envelope with buffer_length 2 on endpoint 0x80. -/
def c1WitnessIocUrb : IocUrb :=
  { setup_packet := ⟨0, 0, 0, 0, 0⟩
    buffer_length := 2
    interval := 0
    packet_count := 0
    flags := 0
    address := 0
    endpoint := 0x80
    typ := USB_VHCI_URB_TYPE_INT }

theorem C1_decode_buffer_sizing_witness :
    (c1WitnessUrb.buffer_actual : Int) = c1WitnessIocUrb.buffer_length
    ∧ (c1WitnessUrb.buffer_length : Int) = c1WitnessIocUrb.buffer_length :=
  C1_decode_buffer_sizing 7 c1WitnessIocUrb c1WitnessUrb (by rfl)

/-! usbfs.rs request-type decoding (claim C3).  The source enums there use a
different discriminant order from lib.rs Dir, and the from_u8 decoders are
partial; the accessor methods unwrap them (a panic is modelled as none). -/

namespace Usbfs

/-- usbfs.rs Dir (Out = 0, In = 1). -/
inductive Dir where
  | Out
  | In
deriving DecidableEq, Repr

def Dir.from_u8 (num : Nat) : Option Dir :=
  match num with
  | 0 => some .Out
  | 1 => some .In
  | _ => none

/-- usbfs.rs CtrlType (Standard = 0, Class = 1, Vendor = 2). -/
inductive CtrlType where
  | Standard
  | Class
  | Vendor
deriving DecidableEq, Repr

def CtrlType.from_u8 (num : Nat) : Option CtrlType :=
  match num with
  | 0 => some .Standard
  | 1 => some .Class
  | 2 => some .Vendor
  | _ => none

/-- usbfs.rs Recipient (Device = 0, Interface = 1, Endpoint = 2, Other = 3). -/
inductive Recipient where
  | Device
  | Interface
  | Endpoint
  | Other
deriving DecidableEq, Repr

def Recipient.from_u8 (num : Nat) : Option Recipient :=
  match num with
  | 0 => some .Device
  | 1 => some .Interface
  | 2 => some .Endpoint
  | 3 => some .Other
  | _ => none

/-- usbfs.rs Request: the two raw setup bytes. -/
structure Request where
  bm_request_type : Nat
  b_request : Nat
deriving DecidableEq, Repr

/-- Request::dir unwraps Dir::from_u8 of bit 7; the unwrap panic is none. -/
def Request.dir (r : Request) : Option Dir :=
  Dir.from_u8 ((r.bm_request_type &&& 0x80) >>> 7)

/-- Request::ctrl_type unwraps CtrlType::from_u8 of bits 5 and 6. -/
def Request.ctrl_type (r : Request) : Option CtrlType :=
  CtrlType.from_u8 ((r.bm_request_type &&& 0x60) >>> 5)

/-- Request::recipient unwraps Recipient::from_u8 of bits 0 through 4. -/
def Request.recipient (r : Request) : Option Recipient :=
  Recipient.from_u8 (r.bm_request_type &&& 0x1F)

end Usbfs

/-- Claim C3 (counterexample): the request-type decoders are not total.  For
bm_request_type 0x60 the control-type bitfield value is 3, which
CtrlType::from_u8 rejects, so Request::ctrl_type panics; for 0x04 the
recipient bitfield value is 4, which Recipient::from_u8 rejects, so
Request::recipient panics. -/
theorem C3_counterexample :
    Usbfs.Request.ctrl_type ⟨0x60, 0⟩ = none
    ∧ Usbfs.Request.recipient ⟨0x04, 0⟩ = none := by
  decide

set_option maxRecDepth 16384 in
/-- Claim C3 (amended): over all 256 request-type byte values, Request::dir
always returns a defined value; Request::ctrl_type returns a defined value
exactly when bits 5 and 6 are not both set; Request::recipient returns a
defined value exactly when the five recipient bits encode a value below 4. -/
theorem C3_decoders_totality :
    ∀ b : Fin 256,
      (Usbfs.Request.dir ⟨b.val, 0⟩).isSome = true
      ∧ ((Usbfs.Request.ctrl_type ⟨b.val, 0⟩).isSome = true ↔ b.val &&& 0x60 ≠ 0x60)
      ∧ ((Usbfs.Request.recipient ⟨b.val, 0⟩).isSome = true ↔ b.val &&& 0x1F < 4) := by
  decide

/-- Claim C4 (counterexample): the Port constructor rejects 32, although the
claim asserts every value in [1,32] is accepted: the BoundedU8 upper bound 32
is exclusive. -/
theorem C4_counterexample : Port.new 32 = none := by
  decide

set_option maxRecDepth 16384 in
/-- Claim C4 (amended): Port::new accepts exactly the u8 values 1 through 31
inclusive and rejects 0 and everything from 32 upward. -/
theorem C4_port_bounds :
    ∀ p : Fin 256, (Port.new p.val).isSome = true ↔ (1 ≤ p.val ∧ p.val ≤ 31) := by
  decide

/-! lib.rs Remote: the give-back and fetch-data paths (claims C5, C6, C10). -/

/-- Wrapping cast from usize to i32 (as-cast in Rust). -/
def i32ofNat (n : Nat) : Int :=
  ((n % 4294967296 : Nat) : Int) - (if n % 4294967296 < 2147483648 then 0 else 4294967296)

/-- Wrapping cast from i32 to u32 (as-cast in Rust). -/
def u32ofI32 (n : Int) : Nat :=
  (n % 4294967296).toNat

structure IocIsoPacketGiveback where
  packet_actual : Nat
  status : Int
deriving DecidableEq, Repr

/-- ioctl::IocGiveback; the two raw pointers are modelled by whether they are
non-null. -/
structure IocGiveback where
  handle : Nat
  buffer_nonnull : Bool
  iso_packets : List IocIsoPacketGiveback
  status : Int
  buffer_actual : Int
  packet_count : Int
  error_count : Int
deriving DecidableEq, Repr

/-- Remote::giveback, pure part: the IocGiveback request the function builds
before invoking the give-back ioctl.  none models the panic of the
assert on MAX_ISO_PACKETS (the per-packet push cannot overflow once the
assert has passed). -/
def Remote.giveback_ioc (urb : Urb) : Option IocGiveback :=
  let ioc0 : IocGiveback :=
    { handle := urb.handle
      buffer_nonnull := false
      iso_packets := []
      status := urb.status_to_errno_raw
      buffer_actual := i32ofNat urb.buffer_actual
      packet_count := 0
      error_count := 0 }
  if urb.packet_count ≤ MAX_ISO_PACKETS then
    let ioc1 :=
      if urb.epadr.is_in ∧ ioc0.buffer_actual > 0 then
        { ioc0 with buffer_nonnull := true }
      else ioc0
    match urb with
    | .Iso iso =>
      some
        { ioc1 with
          iso_packets := iso.iso_packets.map
            (fun p => ⟨u32ofI32 p.packet_actual, p.status.to_errno_raw true⟩)
          packet_count := i32ofNat urb.packet_count
          error_count := iso.error_count }
    | _ => some ioc1
  else none

/-- Remote::giveback, result mapping of the give-back ioctl: ECANCELED and
success both map to Ok, any other errno is surfaced as that I/O error. -/
def Remote.giveback_result (ioctl_result : Except Int Unit) : Except Int Unit :=
  match ioctl_result with
  | .error e => if e = ECANCELED then .ok () else .error e
  | .ok _ => .ok ()

structure IocIsoPacketData where
  offset : Nat
  packet_length : Nat
deriving DecidableEq, Repr

/-- The per-packet update Remote::fetch_data applies to an Iso URB after the
ioctl: kernel-supplied offset and length are copied in, actual is zeroed and
the packet is marked Pending.  The zip stops at the shorter list. -/
def updateIsoPackets : List IsoPacket → List IocIsoPacketData → List IsoPacket
  | ps, [] => ps
  | [], _ :: _ => []
  | _ :: ps, d :: ds =>
    { offset := d.offset
      packet_length := i32ofNat d.packet_length
      packet_actual := 0
      status := .Pending } :: updateIsoPackets ps ds

/-- Remote::fetch_data with the kernel response to the fetch-data ioctl passed
in as a list of iso packet descriptors.  none models the panic of the assert
on MAX_ISO_PACKETS. -/
def Remote.fetch_data (urb : Urb) (kernel_packets : List IocIsoPacketData) : Option Urb :=
  if urb.packet_count ≤ MAX_ISO_PACKETS then
    match urb with
    | .Iso iso =>
      some (.Iso { iso with iso_packets := updateIsoPackets iso.iso_packets kernel_packets })
    | u => some u
  else none

/-- Bulk URB on IN endpoint 0x80 holding one response byte, as handed to
giveback. -/
def c5InUrb : Urb :=
  .Bulk
    { status := .Success
      handle := 1
      buffer := { data := [7], cap := 1 }
      devadr := 1
      epadr := Endpoint.new 0x80
      send_zero_packet := false }

/-- Claim C5 (code bug): giving back an IN URB (endpoint bit 7 set) with
actual length 1 leaves the transfer-buffer pointer null, because
Endpoint::direction in lib.rs classifies every endpoint as OUT, so
Endpoint::is_in is never true and the buffer is never copied back. -/
theorem C5_giveback_buffer_never_copied :
    c5InUrb.buffer_actual = 1
    ∧ c5InUrb.epadr.get &&& 0x80 = 0x80
    ∧ (Remote.giveback_ioc c5InUrb).map IocGiveback.buffer_nonnull = some false := by
  decide

/-- Claim C6: the give-back result coercion maps an ECANCELED ioctl failure to
success, passes success through, and surfaces every other errno unchanged. -/
theorem C6_giveback_ecanceled_ok :
    Remote.giveback_result (.error ECANCELED) = .ok ()
    ∧ (∀ e : Int, e ≠ ECANCELED → Remote.giveback_result (.error e) = .error e)
    ∧ Remote.giveback_result (.ok ()) = .ok () := by
  refine ⟨rfl, ?_, rfl⟩
  intro e he
  simp [Remote.giveback_result, he]

theorem C6_giveback_ecanceled_ok_witness :
    Remote.giveback_result (.error 110) = .error 110 :=
  C6_giveback_ecanceled_ok.2.1 110 (by decide)

/-- Isochronous URB envelope reporting 65 packets, one more than
MAX_ISO_PACKETS. -/
def c10IocUrb : IocUrb :=
  { setup_packet := ⟨0, 0, 0, 0, 0⟩
    buffer_length := 0
    interval := 0
    packet_count := 65
    flags := 0
    address := 0
    endpoint := 0
    typ := USB_VHCI_URB_TYPE_ISO }

/-- Iso packet count of a successfully decoded ProcessUrb payload. -/
def decodedPacketCount (handle : Nat) (u : IocUrb) : Option Nat :=
  match decodeUrb handle u with
  | some (.ok urb) => some urb.packet_count
  | _ => none

/-- Claim C10: fetch_data and giveback proceed exactly when the URB carries at
most MAX_ISO_PACKETS (64) iso packets and panic on more, while decode itself
imposes no such limit: an envelope reporting 65 packets still decodes. -/
theorem C10_iso_packet_limit :
    (∀ (urb : Urb) (kernel_packets : List IocIsoPacketData),
      (Remote.fetch_data urb kernel_packets).isSome = true ↔ urb.packet_count ≤ MAX_ISO_PACKETS)
    ∧ (∀ urb : Urb,
      (Remote.giveback_ioc urb).isSome = true ↔ urb.packet_count ≤ MAX_ISO_PACKETS)
    ∧ decodedPacketCount 1 c10IocUrb = some 65
    ∧ MAX_ISO_PACKETS < 65 := by
  refine ⟨?_, ?_, by decide, by decide⟩
  · intro urb kernel_packets
    unfold Remote.fetch_data
    by_cases h : urb.packet_count ≤ MAX_ISO_PACKETS
    · rw [if_pos h]
      cases urb <;> simpa using h
    · rw [if_neg h]
      simpa using h
  · intro urb
    unfold Remote.giveback_ioc
    by_cases h : urb.packet_count ≤ MAX_ISO_PACKETS
    · rw [if_pos h]
      cases urb <;> simpa using h
    · rw [if_neg h]
      simpa using h

/-! lib.rs Controller: split work receiver and port occupancy
(claims C7, C8). -/

/-- lib.rs Controller; the open device file is reduced to its descriptor and
the informational registration fields are dropped. -/
structure Controller where
  dev : Int
  open_ports : List Bool
  work_recv_split : Bool
deriving DecidableEq, Repr

structure WorkReceiver where
  dev : Int
deriving DecidableEq, Repr

/-- std::io errors as surfaced by the controller: either a plain error kind
such as AlreadyExists or an OS errno. -/
inductive IoError where
  | alreadyExists
  | os : Int → IoError
deriving DecidableEq, Repr

/-- Controller::work_receiver: hands out the receiver and sets the split flag
unless a receiver is already outstanding. -/
def Controller.work_receiver (c : Controller) : Option WorkReceiver × Controller :=
  if c.work_recv_split then (none, c)
  else (some ⟨c.dev⟩, { c with work_recv_split := true })

/-- WorkReceiver::fetch_work_timeout with the fetch-work ioctl response
supplied as a function of the requested timeout. -/
def WorkReceiver.fetch_work_timeout (timeout : Int)
    (kernel : Int → Except Int IocWork) : Option (Except IoError Work) :=
  match kernel timeout with
  | .error e => some (.error (.os e))
  | .ok w => (Work.tryFrom w).map (Except.mapError IoError.os)

/-- Controller::fetch_work_timeout: rejected with AlreadyExists while a
WorkReceiver is outstanding. -/
def Controller.fetch_work_timeout (c : Controller) (timeout : Int)
    (kernel : Int → Except Int IocWork) : Option (Except IoError Work) :=
  if c.work_recv_split then some (.error .alreadyExists)
  else WorkReceiver.fetch_work_timeout timeout kernel

/-- Controller::fetch_work: fetch_work_timeout with the 100 ms default. -/
def Controller.fetch_work (c : Controller)
    (kernel : Int → Except Int IocWork) : Option (Except IoError Work) :=
  c.fetch_work_timeout 100 kernel

/-- Claim C7: the first work_receiver call on an unsplit controller succeeds
and sets the split flag; on a split controller work_receiver returns none
without changing state and both fetch-work entry points fail with
AlreadyExists. -/
theorem C7_single_work_receiver :
    (∀ c : Controller, c.work_recv_split = false →
      c.work_receiver.1.isSome = true ∧ c.work_receiver.2.work_recv_split = true)
    ∧ (∀ c : Controller, c.work_recv_split = true →
      c.work_receiver.1 = none ∧ c.work_receiver.2 = c)
    ∧ (∀ c : Controller, c.work_recv_split = true →
      ∀ (t : Int) (kernel : Int → Except Int IocWork),
        c.fetch_work_timeout t kernel = some (.error .alreadyExists)
        ∧ c.fetch_work kernel = some (.error .alreadyExists)) := by
  refine ⟨?_, ?_, ?_⟩
  · intro c h
    constructor <;> simp [Controller.work_receiver, h]
  · intro c h
    constructor <;> simp [Controller.work_receiver, h]
  · intro c h t kernel
    constructor <;> simp [Controller.fetch_work, Controller.fetch_work_timeout, h]

theorem C7_single_work_receiver_witness :
    ((Controller.mk 3 [false] false).work_receiver.1.isSome = true
      ∧ (Controller.mk 3 [false] false).work_receiver.2.work_recv_split = true)
    ∧ ((Controller.mk 3 [false] true).work_receiver.1 = none
      ∧ (Controller.mk 3 [false] true).work_receiver.2 = Controller.mk 3 [false] true)
    ∧ ((Controller.mk 3 [false] true).fetch_work_timeout 100 (fun _ => .error 110)
        = some (.error .alreadyExists)
      ∧ (Controller.mk 3 [false] true).fetch_work (fun _ => .error 110)
        = some (.error .alreadyExists)) :=
  ⟨C7_single_work_receiver.1 _ rfl,
   C7_single_work_receiver.2.1 _ rfl,
   C7_single_work_receiver.2.2 _ rfl 100 (fun _ => .error 110)⟩

/-! Port occupancy (claim C8). -/

inductive DataRate where
  | Full
  | Low
  | High
deriving DecidableEq, Repr

def PortStatusBits.CONNECTION : Nat := 0x0001

def PortStatusBits.ENABLE : Nat := 0x0002

def PortStatusBits.RESET : Nat := 0x0010

def PortStatusBits.POWER : Nat := 0x0100

def PortStatusBits.LOW_SPEED : Nat := 0x0200

def PortStatusBits.HIGH_SPEED : Nat := 0x0400

def PortChangeBits.CONNECTION : Nat := 0x0001

def PortFlagBits.RESUMING : Nat := 0x01

/-- Controller::port_connect (ioctl success path): the port-stat request sent
to the kernel and the state with the occupancy bit of the port set. -/
def Controller.port_connect (c : Controller) (port : Nat) (data_rate : DataRate) :
    IocPortStat × Controller :=
  let status :=
    match data_rate with
    | .Full => PortStatusBits.CONNECTION
    | .Low => PortStatusBits.CONNECTION ||| PortStatusBits.LOW_SPEED
    | .High => PortStatusBits.CONNECTION ||| PortStatusBits.HIGH_SPEED
  (⟨status, PortChangeBits.CONNECTION, port, 0⟩,
   { c with open_ports := c.open_ports.set (port - 1) true })

/-- Controller::port_disconnect (ioctl success path). -/
def Controller.port_disconnect (c : Controller) (port : Nat) :
    IocPortStat × Controller :=
  (⟨0, PortChangeBits.CONNECTION, port, 0⟩,
   { c with open_ports := c.open_ports.set (port - 1) false })

/-- Iterator::position over the occupancy bitmap with the predicate
not-in-use, as used by Controller::port_connect_any. -/
def position : List Bool → Option Nat
  | [] => none
  | in_use :: rest => if !in_use then some 0 else (position rest).map (· + 1)

/-- Controller::port_connect_any: find the first free port, unwrap (none on
panic when every port is occupied or the index exceeds the Port range), then
connect it. -/
def Controller.port_connect_any (c : Controller) (data_rate : DataRate) :
    Option (Nat × Controller) :=
  match position c.open_ports with
  | some i =>
    match Port.new (i + 1) with
    | some p => some (p, (c.port_connect p data_rate).2)
    | none => none
  | none => none

theorem position_spec (l : List Bool) : ∀ i : Nat, position l = some i →
    l.get? i = some false ∧ ∀ j, j < i → l.get? j = some true := by
  induction l with
  | nil =>
    intro i h
    simp [position] at h
  | cons b rest ih =>
    intro i h
    cases b with
    | false =>
      have hi : i = 0 := by simpa [position] using h.symm
      subst hi
      exact ⟨rfl, fun j hj => absurd hj (Nat.not_lt_zero j)⟩
    | true =>
      cases hp : position rest with
      | none =>
        rw [show position (true :: rest) = (position rest).map (· + 1) from rfl, hp] at h
        simp at h
      | some i0 =>
        rw [show position (true :: rest) = (position rest).map (· + 1) from rfl, hp] at h
        have hi : i = i0 + 1 := by simpa using h.symm
        subst hi
        obtain ⟨h1, h2⟩ := ih i0 hp
        refine ⟨by simpa using h1, ?_⟩
        intro j hj
        cases j with
        | zero => rfl
        | succ j => exact h2 j (Nat.succ_lt_succ_iff.mp hj)

theorem position_none (l : List Bool) (h : ∀ b ∈ l, b = true) : position l = none := by
  induction l with
  | nil => rfl
  | cons b rest ih =>
    have hb : b = true := h b (by simp)
    subst hb
    have hr := ih (fun x hx => h x (by simp [hx]))
    simp [position, hr]

theorem position_isSome (l : List Bool) : ∀ i : Nat, l.get? i = some false →
    (position l).isSome = true := by
  induction l with
  | nil =>
    intro i h
    simp at h
  | cons b rest ih =>
    intro i h
    cases b with
    | false => rfl
    | true =>
      cases i with
      | zero => simp at h
      | succ i =>
        have hs := ih i (by simpa using h)
        rw [show position (true :: rest) = (position rest).map (· + 1) from rfl]
        cases hp : position rest with
        | none => rw [hp] at hs; simp at hs
        | some i0 => simp

theorem get?_set_self (l : List Bool) : ∀ (i : Nat) (a : Bool),
    i < l.length → (l.set i a).get? i = some a := by
  induction l with
  | nil =>
    intro i a h
    simp at h
  | cons b rest ih =>
    intro i a h
    cases i with
    | zero => rfl
    | succ i => exact ih i a (by simpa using h)

theorem get?_set_other (l : List Bool) : ∀ (i j : Nat) (a : Bool),
    j ≠ i → (l.set i a).get? j = l.get? j := by
  induction l with
  | nil =>
    intro i j a _
    rfl
  | cons b rest ih =>
    intro i j a hne
    cases i with
    | zero =>
      cases j with
      | zero => exact absurd rfl hne
      | succ j => rfl
    | succ i =>
      cases j with
      | zero => rfl
      | succ j => exact ih i j a (fun he => hne (by rw [he]))

theorem Port.new_of_bounds (n : Nat) (h1 : 1 ≤ n) (h2 : n < 32) :
    Port.new n = some n := by
  unfold Port.new BoundedU8.new
  rw [if_neg (by omega)]

/-- Claim C8: with at least one free port, port_connect_any picks the first
free port, marks exactly it occupied and returns it; with every port occupied
it fails (the unwrap panic, a defined failure); port_disconnect frees exactly
the named port. -/
theorem C8_port_occupancy :
    (∀ (c : Controller) (dr : DataRate) (i : Nat),
      c.open_ports.length ≤ 31 →
      c.open_ports.get? i = some false →
      ∃ p c2, c.port_connect_any dr = some (p, c2)
        ∧ c.open_ports.get? (p - 1) = some false
        ∧ (∀ j, j < p - 1 → c.open_ports.get? j = some true)
        ∧ c2.open_ports.get? (p - 1) = some true
        ∧ (∀ j, j ≠ p - 1 → c2.open_ports.get? j = c.open_ports.get? j))
    ∧ (∀ (c : Controller) (dr : DataRate),
      (∀ b ∈ c.open_ports, b = true) → c.port_connect_any dr = none)
    ∧ (∀ (c : Controller) (p : Nat), p - 1 < c.open_ports.length →
      ((c.port_disconnect p).2.open_ports.get? (p - 1) = some false
        ∧ ∀ j, j ≠ p - 1 →
            (c.port_disconnect p).2.open_ports.get? j = c.open_ports.get? j)) := by
  refine ⟨?_, ?_, ?_⟩
  · intro c dr i hlen hfree
    have hpos := position_isSome c.open_ports i hfree
    obtain ⟨i0, hp⟩ := Option.isSome_iff_exists.mp hpos
    obtain ⟨h1, h2⟩ := position_spec c.open_ports i0 hp
    have hlt : i0 < c.open_ports.length := by
      by_contra hge
      rw [List.get?_eq_none.mpr (le_of_not_lt hge)] at h1
      exact Option.noConfusion h1
    have hport : Port.new (i0 + 1) = some (i0 + 1) :=
      Port.new_of_bounds (i0 + 1) (Nat.le_add_left 1 i0) (by omega)
    refine ⟨i0 + 1, (c.port_connect (i0 + 1) dr).2, ?_, ?_, ?_, ?_, ?_⟩
    · unfold Controller.port_connect_any
      rw [hp]
      simp [hport]
    · simpa using h1
    · intro j hj
      exact h2 j (by simpa using hj)
    · simpa [Controller.port_connect] using get?_set_self c.open_ports i0 true hlt
    · intro j hj
      simpa [Controller.port_connect] using
        get?_set_other c.open_ports i0 j true (by simpa using hj)
  · intro c dr hall
    unfold Controller.port_connect_any
    rw [position_none c.open_ports hall]
  · intro c p hlen
    refine ⟨?_, ?_⟩
    · simpa [Controller.port_disconnect] using
        get?_set_self c.open_ports (p - 1) false hlen
    · intro j hj
      simpa [Controller.port_disconnect] using
        get?_set_other c.open_ports (p - 1) j false hj

theorem C8_port_occupancy_witness :
    (∃ p c2,
      (Controller.mk 0 [true, false] false).port_connect_any .Full = some (p, c2)
        ∧ (Controller.mk 0 [true, false] false).open_ports.get? (p - 1) = some false
        ∧ (∀ j, j < p - 1 →
            (Controller.mk 0 [true, false] false).open_ports.get? j = some true)
        ∧ c2.open_ports.get? (p - 1) = some true
        ∧ (∀ j, j ≠ p - 1 →
            c2.open_ports.get? j
              = (Controller.mk 0 [true, false] false).open_ports.get? j))
    ∧ (Controller.mk 0 [true] false).port_connect_any .Full = none
    ∧ (((Controller.mk 0 [false] false).port_disconnect 1).2.open_ports.get? 0
          = some false
      ∧ ∀ j, j ≠ 0 →
          ((Controller.mk 0 [false] false).port_disconnect 1).2.open_ports.get? j
            = (Controller.mk 0 [false] false).open_ports.get? j) :=
  ⟨C8_port_occupancy.1 (Controller.mk 0 [true, false] false) .Full 1 (by decide) (by decide),
   C8_port_occupancy.2.1 (Controller.mk 0 [true] false) .Full (by decide),
   C8_port_occupancy.2.2 (Controller.mk 0 [false] false) 1 (by decide)⟩

/-! The example driver loop port-stat reducer (claim C9). -/

/-- The three follow-up actions the port-stat arm of the example driver loop
may issue. -/
structure PortStatActions where
  port_connect : Bool
  port_reset_done : Bool
  port_resumed : Bool
deriving DecidableEq, Repr

/-- The port-stat arm of the example driver loop (virtual_device.rs main):
given the retained previous snapshot and the incoming one, the three
edge-triggered actions it issues, and the snapshot it retains afterwards.
The bang of the bitflags types complements all sixteen (status) or eight
(flags) bits. -/
def portStatReact (prev next : IocPortStat) : PortStatActions × IocPortStat :=
  ({ port_connect :=
       containsFlag (0xFFFF ^^^ prev.status) PortStatusBits.POWER
         && containsFlag next.status PortStatusBits.POWER
     port_reset_done :=
       containsFlag (0xFFFF ^^^ prev.status) PortStatusBits.RESET
         && containsFlag next.status (PortStatusBits.RESET ||| PortStatusBits.CONNECTION)
     port_resumed :=
       (containsFlag (0xFF ^^^ prev.flags) PortFlagBits.RESUMING
         && containsFlag next.flags PortFlagBits.RESUMING)
         && containsFlag next.status PortStatusBits.CONNECTION },
   next)

/-- A flag bit cannot be contained both in a complemented word and in the
word itself: the two containment tests cannot both hold at any bit the
complement mask covers. -/
theorem compl_contains_and_self (w s f g i : Nat)
    (hw : w.testBit i = true) (hf : f.testBit i = true) (hg : g.testBit i = true) :
    (containsFlag (w ^^^ s) f && containsFlag s g) = false := by
  cases h1 : containsFlag (w ^^^ s) f with
  | false => simp
  | true =>
    cases h2 : containsFlag s g with
    | false => simp
    | true =>
      exfalso
      have e1 : (w ^^^ s) &&& f = f := by simpa [containsFlag] using h1
      have e2 : s &&& g = g := by simpa [containsFlag] using h2
      have hs : s.testBit i = true := by
        have hc := congrArg (fun n => n.testBit i) e2
        simpa [Nat.testBit_and, hg] using hc
      have hx : (w ^^^ s).testBit i = true := by
        have hc := congrArg (fun n => n.testBit i) e1
        simpa [Nat.testBit_and, hf] using hc
      rw [Nat.testBit_xor, hw, hs] at hx
      simp at hx

/-- Claim C9: the port-stat reducer is edge-triggered: it retains the incoming
snapshot, and feeding it a snapshot identical to the retained one issues no
port_connect, no port_reset_done and no port_resumed action. -/
theorem C9_edge_triggered :
    ∀ prev s : IocPortStat,
      (portStatReact s s).1 = ⟨false, false, false⟩
      ∧ (portStatReact prev s).2 = s := by
  intro prev s
  refine ⟨?_, rfl⟩
  have h1 : (containsFlag (0xFFFF ^^^ s.status) PortStatusBits.POWER
      && containsFlag s.status PortStatusBits.POWER) = false :=
    compl_contains_and_self 0xFFFF s.status PortStatusBits.POWER PortStatusBits.POWER 8
      (by decide) (by decide) (by decide)
  have h2 : (containsFlag (0xFFFF ^^^ s.status) PortStatusBits.RESET
      && containsFlag s.status (PortStatusBits.RESET ||| PortStatusBits.CONNECTION)) = false :=
    compl_contains_and_self 0xFFFF s.status PortStatusBits.RESET
      (PortStatusBits.RESET ||| PortStatusBits.CONNECTION) 4
      (by decide) (by decide) (by decide)
  have h3 : (containsFlag (0xFF ^^^ s.flags) PortFlagBits.RESUMING
      && containsFlag s.flags PortFlagBits.RESUMING) = false :=
    compl_contains_and_self 0xFF s.flags PortFlagBits.RESUMING PortFlagBits.RESUMING 0
      (by decide) (by decide) (by decide)
  simp [portStatReact, h1, h2, h3]

end UsbVhci
